import Mathlib

/-!
Verification development for the mocap-finder repository.

Shallow embedding of the animation playback controller
(`AnimationViewportWidget` in src/mocap_browser/mocap_browser_ui.py),
the scene handler (`FbxHandler` in src/mocap_finder/fbx_utils.py),
the multi-scene aggregator (`FBXViewportWidget.load_fbx_files`,
`remove_existing_handlers`, `set_node_visibility`) and the skeleton
sampling / drawing filter (`FBXViewportWidget.paintGL`).

Frames are Python ints, modelled as `Int`.  A "frame changed" signal
emission (`frame_changed.emit`) is modelled by returning the list of
emitted frame values next to the new state.  Python attribute lookup on
attributes that were never assigned raises `AttributeError`; such
attributes are modelled as `Option` fields initialised to `none`, and
an access of a `none` field surfaces as an explicit `PyError`.
-/

namespace MocapFinder

/-- Python-level runtime errors that the embedded code can raise. -/
inductive PyError where
  | attributeError : PyError
  | valueError : PyError
  deriving Repr, DecidableEq

/-! ## Playback controller (`AnimationViewportWidget`) -/

/-- Mutable state of `AnimationViewportWidget.__init__`
(src/mocap_browser/mocap_browser_ui.py lines 99-102). -/
structure PlaybackState where
  play_active : Bool
  active_frame : Int
  start_frame : Int
  end_frame : Int
  deriving Repr, DecidableEq

/-- Source `AnimationViewportWidget.set_active_frame` (lines 144-147): unconditional
assignment followed by a `frame_changed` emission. -/
def set_active_frame (s : PlaybackState) (value : Int) : PlaybackState × List Int :=
  ({ s with active_frame := value }, [value])

/-- Source `AnimationViewportWidget.set_frame` (lines 118-122): silent no-op while
playing, otherwise a direct unclamped assignment with no emission. -/
def set_frame (s : PlaybackState) (frame : Int) : PlaybackState × List Int :=
  if s.play_active then (s, [])
  else ({ s with active_frame := frame }, [])

/-- Source `AnimationViewportWidget.toggle_play` (lines 112-116). -/
def toggle_play (s : PlaybackState) : PlaybackState × List Int :=
  ({ s with play_active := !s.play_active }, [])

/-- Source `AnimationViewportWidget.play_next_frame` (lines 124-131), the timer
tick: no-op when paused; wraps to `start_frame` when `active_frame >=
end_frame`, otherwise advances by one. -/
def play_next_frame (s : PlaybackState) : PlaybackState × List Int :=
  if !s.play_active then (s, [])
  else if s.active_frame ≥ s.end_frame then set_active_frame s s.start_frame
  else set_active_frame s (s.active_frame + 1)

/-- Source `AnimationViewportWidget.increment_frame` (lines 133-136): clamp
`active_frame + value` into the timeline, then `set_active_frame`. -/
def increment_frame (s : PlaybackState) (value : Int) : PlaybackState × List Int :=
  let target_frame := s.active_frame + value
  let target_frame := max s.start_frame (min target_frame s.end_frame)
  set_active_frame s target_frame

/-- Source `AnimationViewportWidget.go_to_start_frame` (lines 138-139). -/
def go_to_start_frame (s : PlaybackState) : PlaybackState × List Int :=
  set_active_frame s s.start_frame

/-- Source `AnimationViewportWidget.go_to_end_frame` (lines 141-142). -/
def go_to_end_frame (s : PlaybackState) : PlaybackState × List Int :=
  set_active_frame s s.end_frame

/-- One playback-controller operation, as enumerated by claim C1. -/
inductive PlaybackOp where
  | toggle_play : PlaybackOp
  | play_next_frame : PlaybackOp
  | set_frame : Int → PlaybackOp
  | set_active_frame : Int → PlaybackOp
  | increment_frame : Int → PlaybackOp
  | go_to_start_frame : PlaybackOp
  | go_to_end_frame : PlaybackOp
  deriving Repr, DecidableEq

/-- State after one controller operation (emissions discarded). -/
def apply_op (s : PlaybackState) : PlaybackOp → PlaybackState
  | .toggle_play => (toggle_play s).1
  | .play_next_frame => (play_next_frame s).1
  | .set_frame f => (set_frame s f).1
  | .set_active_frame f => (set_active_frame s f).1
  | .increment_frame d => (increment_frame s d).1
  | .go_to_start_frame => (go_to_start_frame s).1
  | .go_to_end_frame => (go_to_end_frame s).1

/-- State after a sequence of controller operations. -/
def run_ops (s : PlaybackState) (ops : List PlaybackOp) : PlaybackState :=
  ops.foldl apply_op s

/-- The `PlaybackState` invariant from the spec data model:
`start_frame ≤ active_frame ≤ end_frame`. -/
abbrev Inv (s : PlaybackState) : Prop :=
  s.start_frame ≤ s.active_frame ∧ s.active_frame ≤ s.end_frame

/-- An operation is in-range when any frame it assigns directly
(`set_frame` / `set_active_frame`, which the source does not clamp) lies
within the current `[start_frame, end_frame]` window. -/
def op_in_range (s : PlaybackState) : PlaybackOp → Bool
  | .set_frame f => decide (s.start_frame ≤ f ∧ f ≤ s.end_frame)
  | .set_active_frame f => decide (s.start_frame ≤ f ∧ f ≤ s.end_frame)
  | _ => true

/-- Every operation of the sequence is in-range at the state where it runs. -/
def safe_ops : PlaybackState → List PlaybackOp → Bool
  | _, [] => true
  | s, op :: rest => op_in_range s op && safe_ops (apply_op s op) rest

/-! ## Scene model and `FbxHandler` (src/mocap_finder/fbx_utils.py) -/

/-- A node of the provider scene graph: a name and an ordered child list
(`GetName` / `GetChildCount` / `GetChild`). -/
inductive SceneNode where
  | node : String → List SceneNode → SceneNode

/-- Source `node.GetName()`. -/
def SceneNode.name : SceneNode → String
  | .node n _ => n

/-- An animation stack: `GetLocalTimeSpan().GetStart()/GetStop()` frame
counts, plus its animation layers (enumerated by `GetSrcObject`). -/
structure AnimStack where
  localStart : Int
  localStop : Int
  animLayers : List Unit

/-- The provider scene object: its animation stacks in `GetSrcObject`
enumeration order, and its root node (`GetRootNode`). -/
structure FbxScene where
  animStacks : List AnimStack
  root : SceneNode

/-- Source `FbxHandler` instance state.  `__init__` (fbx_utils.py lines 5-9) sets
`anim_stack`, `anim_layer` and `is_loaded`; the attributes `hidden_nodes`,
`display_color` and `file_path` are never assigned by the class, so they
are `Option` fields that start out `none` (an access while `none` is a
Python `AttributeError`).  Display colors are abstract values (`Nat`). -/
structure FbxHandler where
  scene : FbxScene
  anim_stack : Option AnimStack
  anim_layer : Option Unit
  is_loaded : Bool
  hidden_nodes : Option (List String)
  display_color : Option Nat
  file_path : Option String

/-- Source `FbxHandler.__init__` (lines 5-9): fresh scene, no stack/layer, not
loaded, and none of `hidden_nodes` / `display_color` / `file_path` set. -/
def FbxHandler.init (scene : FbxScene) : FbxHandler :=
  { scene := scene
    anim_stack := none
    anim_layer := none
    is_loaded := false
    hidden_nodes := none
    display_color := none
    file_path := none }

/-- Source `FbxHandler.load_scene` (lines 11-15).  `GetSrcObject(AnimStack, 0)`
is the first stack or `None`; the very next line calls `GetSrcObject` on
that result, so a scene without an animation stack raises
`AttributeError` before `is_loaded` is set.  Note the `file_path`
argument is only passed to the provider load call: the method never
stores it on the handler. -/
def FbxHandler.load_scene (h : FbxHandler) : Except PyError FbxHandler :=
  match h.scene.animStacks.head? with
  | none => .error .attributeError
  | some stack =>
      .ok { h with
              anim_stack := some stack
              anim_layer := stack.animLayers.head?
              is_loaded := true }

/-- Source `FbxHandler.unload_scene` (lines 17-19): destroys the manager and
clears the loaded flag. -/
def FbxHandler.unload_scene (h : FbxHandler) : FbxHandler :=
  { h with is_loaded := false }

/-- Source `FbxHandler.get_start_frame` (lines 31-32): reads
`anim_stack.GetLocalTimeSpan()`, an `AttributeError` when `anim_stack`
is `None`. -/
def FbxHandler.get_start_frame (h : FbxHandler) : Except PyError Int :=
  match h.anim_stack with
  | none => .error .attributeError
  | some stack => .ok stack.localStart

/-- Source `FbxHandler.get_end_frame` (lines 34-35). -/
def FbxHandler.get_end_frame (h : FbxHandler) : Except PyError Int :=
  match h.anim_stack with
  | none => .error .attributeError
  | some stack => .ok stack.localStop

/-! ## Multi-scene aggregator (`FBXViewportWidget`) -/

/-- One candidate path for `load_fbx_files`: the path string, the result
of the `os.path.exists` check, and the scene content the provider would
deliver for it. -/
structure PathSpec where
  path : String
  existsOnDisk : Bool
  scene : FbxScene

/-- Modelled from the spec: `ui_utils.get_random_color` (module
`mocap_browser.ui_utils`, not present under src/).  Spec section 4.4:
when more than one path is loaded "each handle receives a distinct
pseudo-random display color"; distinctness is realised by keying the
color on the per-load call index.  The spec's fixed default color is a
separate, never-generated value. -/
def get_random_color (call_index : Nat) : Nat :=
  call_index + 1

/-- Modelled from the spec: the data model's "display color (RGBA,
default white ...)"; an abstract fixed value distinct from every
`get_random_color` output. -/
def default_display_color : Nat := 0

/-- Aggregator-visible state: handler list plus the inherited playback
fields mutated at the end of `load_fbx_files`. -/
structure AggState where
  fbx_handlers : List FbxHandler
  play_active : Bool
  active_frame : Int
  start_frame : Int
  end_frame : Int

/-- Result of one `load_fbx_files` call: the state it leaves behind,
whether `scene_content_updated` was emitted, and the Python error that
escaped, if any (the state then reflects the mutations made before the
raise). -/
structure LoadOutcome where
  state : AggState
  emitted : Bool
  error : Option PyError

/-- The per-path loop body of `load_fbx_files` (lines 236-256): skip
paths failing the existence check (with a warning print), otherwise
construct and load a handler, append it, record its start/end frames,
and, when more than one path was requested (`multi`), assign the next
random display color.  An exception from `load_scene` escapes with the
handlers accumulated so far (`k` counts the color-assignment calls). -/
def load_loop (multi : Bool) (handlers : List FbxHandler)
    (starts stops : List Int) (k : Nat) :
    List PathSpec → Except (PyError × List FbxHandler) (List FbxHandler × List Int × List Int)
  | [] => .ok (handlers, starts, stops)
  | p :: rest =>
    if p.existsOnDisk = false then
      load_loop multi handlers starts stops k rest
    else
      match (FbxHandler.init p.scene).load_scene with
      | .error e => .error (e, handlers)
      | .ok h =>
        match h.get_start_frame, h.get_end_frame with
        | .ok st, .ok en =>
          let h := if multi then { h with display_color := some (get_random_color k) } else h
          load_loop multi (handlers ++ [h]) (starts ++ [st]) (stops ++ [en]) (k + 1) rest
        | _, _ => .error (.attributeError, handlers ++ [h])

/-- Source `FBXViewportWidget.remove_existing_handlers` (lines 264-267):
`unload_scene` on every handler, then `clear()` the list — the unloaded
handler objects are discarded, so the resulting list is empty. -/
def remove_existing_handlers (s : AggState) : AggState :=
  { s with fbx_handlers := [] }

/-- Source `FBXViewportWidget.load_fbx_files` (lines 223-262).  An empty (falsy)
path list returns immediately.  Otherwise the existing handlers are
removed FIRST, then each path is processed by `load_loop`; afterwards
`min(start_times)` / `max(end_times)` recompute the range — `min` of an
empty sequence raises `ValueError`, leaving the cleared handler list and
the old frame fields behind, and the `scene_content_updated` emission at
line 261 is never reached. -/
def load_fbx_files (s : AggState) (paths : List PathSpec) : LoadOutcome :=
  if paths.isEmpty then ⟨s, false, none⟩
  else
    let s0 := remove_existing_handlers s
    match load_loop (decide (1 < paths.length)) [] [] [] 0 paths with
    | .error (e, partialHandlers) =>
        ⟨{ s0 with fbx_handlers := partialHandlers }, false, some e⟩
    | .ok (handlers, starts, stops) =>
        match starts.min?, stops.max? with
        | some mn, some mx =>
            ⟨{ s0 with
                 fbx_handlers := handlers
                 start_frame := mn
                 end_frame := mx
                 active_frame := mn }, true, none⟩
        | _, _ => ⟨{ s0 with fbx_handlers := handlers }, false, some .valueError⟩

/-- The hidden-list update of `set_node_visibility` for one handler
(lines 274-280): a truthy check state removes each listed name if
present (`list.remove`, first occurrence); a falsy state appends each
name unconditionally. -/
def update_hidden (hidden : List String) (node_names : List String) (state : Bool) :
    List String :=
  if state then
    node_names.foldl (fun acc n => if n ∈ acc then acc.erase n else acc) hidden
  else hidden ++ node_names

/-- Source `FBXViewportWidget.set_node_visibility` (lines 269-282): walk the
handler list, skip handlers whose `file_path` differs from the given
path, update the matching handlers' hidden lists.  Reading `file_path`
or `hidden_nodes` on a handler that never had them assigned raises
`AttributeError`; the handlers already processed keep their mutations. -/
def set_node_visibility (fbx_path : String) (node_names : List String) (state : Bool) :
    List FbxHandler → List FbxHandler × Option PyError
  | [] => ([], none)
  | h :: rest =>
    match h.file_path with
    | none => (h :: rest, some .attributeError)
    | some fp =>
      if fp ≠ fbx_path then
        let (rest', e) := set_node_visibility fbx_path node_names state rest
        (h :: rest', e)
      else
        match h.hidden_nodes with
        | none => (h :: rest, some .attributeError)
        | some hidden =>
          let h' := { h with hidden_nodes := some (update_hidden hidden node_names state) }
          let (rest', e) := set_node_visibility fbx_path node_names state rest
          (h' :: rest', e)

/-! ## Skeleton sampling and the `paintGL` drawing filter -/

/-- Child list of a node. -/
def SceneNode.children : SceneNode → List SceneNode
  | .node _ cs => cs

mutual

/-- Modelled from the spec: the recursion of
`fbx_gl_utils.recursive_get_fbx_skeleton_positions` (module
`mocap_browser.fbx_gl_utils`, not present under src/).  Spec section 4.2:
depth-first pre-order; every non-root node yields one entry pairing its
name with its own and its parent's world position at the sampled frame.
The hidden-name set is not an input: traversal never consults it.
World positions are abstract (`wpos`, the provider's time-sampling
query already specialised to the frame). -/
def node_entries {α : Type} (wpos : String → α) (parentName : String) :
    SceneNode → List (String × α × α)
  | .node n cs => (n, wpos n, wpos parentName) :: forest_entries wpos n cs

/-- Entries contributed by a list of sibling subtrees (children of the
node named `parentName`). -/
def forest_entries {α : Type} (wpos : String → α) (parentName : String) :
    List SceneNode → List (String × α × α)
  | [] => []
  | c :: rest => node_entries wpos parentName c ++ forest_entries wpos parentName rest

end

/-- The per-scene sample: all non-root entries below the root
(`scene.GetRootNode()` itself is never emitted as a segment). -/
def skeleton_points {α : Type} (wpos : String → α) (scene : FbxScene) :
    List (String × α × α) :=
  forest_entries wpos scene.root.name scene.root.children

/-- The drawing filter of `paintGL` (lines 213-220): a segment is drawn
unless its bone name is in the handler's hidden list (`continue`). -/
def drawn_segments {α : Type} (hidden : List String) (points : List (String × α × α)) :
    List (String × α × α) :=
  points.filter (fun e => decide (e.1 ∉ hidden))

/-- Source `FBXViewportWidget.paintGL` (lines 191-221), restricted to the
per-handler skeleton pass: skip unloaded handlers; read
`fbx_handler.hidden_nodes` and `fbx_handler.display_color` (an
`AttributeError` when never assigned); sample the skeleton at
`active_frame` and draw every non-hidden segment. -/
def paintGL {α : Type} (wpos : Int → String → α) (active_frame : Int) :
    List FbxHandler → Except PyError (List (String × α × α))
  | [] => .ok []
  | h :: rest =>
    if h.is_loaded = false then paintGL wpos active_frame rest
    else
      match h.hidden_nodes with
      | none => .error .attributeError
      | some hidden =>
        match h.display_color with
        | none => .error .attributeError
        | some _ =>
          match paintGL wpos active_frame rest with
          | .error e => .error e
          | .ok segs =>
              .ok (drawn_segments hidden (skeleton_points (wpos active_frame) h.scene) ++ segs)

/-- The handler value `FbxHandler.load_scene` returns when the scene's
first animation stack is `st`. -/
def loaded_handler (sc : FbxScene) (st : AnimStack) : FbxHandler :=
  { FbxHandler.init sc with
      anim_stack := some st
      anim_layer := st.animLayers.head?
      is_loaded := true }

/-! ## Playback-controller theorems -/

/-- Helper: one in-range operation preserves the playback invariant. -/
theorem inv_apply_op (s : PlaybackState) (op : PlaybackOp)
    (hinv : Inv s) (hop : op_in_range s op = true) : Inv (apply_op s op) := by
  obtain ⟨h1, h2⟩ := hinv
  cases op with
  | toggle_play => exact ⟨h1, h2⟩
  | play_next_frame =>
    simp only [apply_op, play_next_frame, set_active_frame]
    split
    · exact ⟨h1, h2⟩
    · split
      · exact ⟨le_refl _, h1.trans h2⟩
      · rename_i hlt
        refine ⟨?_, ?_⟩
        · show s.start_frame ≤ s.active_frame + 1
          omega
        · show s.active_frame + 1 ≤ s.end_frame
          omega
  | set_frame f =>
    simp only [op_in_range, decide_eq_true_eq] at hop
    simp only [apply_op, set_frame]
    split
    · exact ⟨h1, h2⟩
    · exact hop
  | set_active_frame f =>
    simp only [op_in_range, decide_eq_true_eq] at hop
    exact hop
  | increment_frame d =>
    refine ⟨le_max_left _ _, max_le (h1.trans h2) (min_le_right _ _)⟩
  | go_to_start_frame => exact ⟨le_refl _, h1.trans h2⟩
  | go_to_end_frame => exact ⟨h1.trans h2, le_refl _⟩

/-- Helper: the invariant holds after a whole in-range operation sequence. -/
theorem inv_run_ops : ∀ (ops : List PlaybackOp) (s : PlaybackState),
    Inv s → safe_ops s ops = true → Inv (run_ops s ops)
  | [], _, hinv, _ => hinv
  | op :: rest, s, hinv, hsafe => by
    simp only [safe_ops, Bool.and_eq_true] at hsafe
    have hstep : Inv (apply_op s op) := inv_apply_op s op hinv hsafe.1
    simpa [run_ops, List.foldl] using inv_run_ops rest (apply_op s op) hstep hsafe.2

/-- Helper: a prefix of an in-range operation sequence is in-range. -/
theorem safe_ops_take : ∀ (ops : List PlaybackOp) (s : PlaybackState) (n : Nat),
    safe_ops s ops = true → safe_ops s (ops.take n) = true
  | [], _, n, h => by simpa using h
  | _ :: _, _, 0, _ => rfl
  | op :: rest, s, n + 1, h => by
    simp only [safe_ops, Bool.and_eq_true, List.take_succ_cons] at h ⊢
    exact ⟨h.1, safe_ops_take rest _ n h.2⟩

/-- Claim C1 (counterexample): the claim as stated fails.  From the
invariant-satisfying paused state (active=0, start=0, end=0), the listed
operation `set_frame 1` — which the source applies without clamping —
leaves `active_frame = 1 > end_frame = 0`, breaking the invariant. -/
theorem C1_counterexample :
    Inv (PlaybackState.mk false 0 0 0) ∧
      ¬ Inv (apply_op (PlaybackState.mk false 0 0 0) (.set_frame 1)) := by
  decide

/-- Claim C1 (amended): starting from a state with
start_frame ≤ active_frame ≤ end_frame, the invariant holds after every
operation of any sequence of controller operations, provided every
`set_frame` / `set_active_frame` in the sequence is given a frame inside
the then-current `[start_frame, end_frame]` window (the source assigns
those two without clamping; all other operations are unconditional). -/
theorem C1_invariant_after_every_op (s : PlaybackState) (ops : List PlaybackOp) (n : Nat)
    (hinv : Inv s) (hsafe : safe_ops s ops = true) :
    Inv (run_ops s (ops.take n)) :=
  inv_run_ops (ops.take n) s hinv (safe_ops_take ops s n hsafe)

/-- Witness for C1: a concrete in-range five-operation run from a state
satisfying the invariant, checked after its third operation. -/
theorem C1_witness :
    Inv (PlaybackState.mk false 2 0 5) ∧
      safe_ops (PlaybackState.mk false 2 0 5)
        [.toggle_play, .play_next_frame, .increment_frame 100, .toggle_play, .set_frame 1]
        = true ∧
      Inv (run_ops (PlaybackState.mk false 2 0 5)
        ([.toggle_play, .play_next_frame, .increment_frame 100, .toggle_play,
          .set_frame 1].take 3)) :=
  ⟨by decide, by decide,
    C1_invariant_after_every_op (PlaybackState.mk false 2 0 5)
      [.toggle_play, .play_next_frame, .increment_frame 100, .toggle_play, .set_frame 1]
      3 (by decide) (by decide)⟩

/-- Claim C3 (counterexample): the claim as stated fails.  In the playing
state (active=5, start=0, end=3) the claim's premise active ≠ end holds,
yet a tick wraps to start_frame 0 instead of advancing to 6, because the
source tests `active_frame >= end_frame`, not equality. -/
theorem C3_counterexample :
    (PlaybackState.mk true 5 0 3).play_active = true ∧
      (PlaybackState.mk true 5 0 3).active_frame ≠ (PlaybackState.mk true 5 0 3).end_frame ∧
      (play_next_frame (PlaybackState.mk true 5 0 3)).1.active_frame = 0 ∧
      (play_next_frame (PlaybackState.mk true 5 0 3)).1.active_frame ≠ 5 + 1 := by
  decide

/-- Claim C3 (amended): when playing, a tick with
active_frame ≥ end_frame wraps to start_frame (for invariant-satisfying
states this is exactly active_frame = end_frame), a tick with
active_frame < end_frame advances by one, and both emit the new frame;
when paused, a tick changes no state and emits no notification. -/
theorem C3_tick_behavior (s : PlaybackState) :
    (s.play_active = true → s.end_frame ≤ s.active_frame →
       play_next_frame s = ({ s with active_frame := s.start_frame }, [s.start_frame])) ∧
    (s.play_active = true → s.active_frame < s.end_frame →
       play_next_frame s
         = ({ s with active_frame := s.active_frame + 1 }, [s.active_frame + 1])) ∧
    (s.play_active = false → play_next_frame s = (s, [])) := by
  refine ⟨fun h1 h2 => ?_, fun h1 h2 => ?_, fun h1 => ?_⟩
  · simp [play_next_frame, set_active_frame, h1, h2]
  · simp [play_next_frame, set_active_frame, h1, not_le.mpr h2]
  · simp [play_next_frame, h1]

/-- Witness for C3: the three tick branches at concrete states — wrap at
the end frame, advance in the middle, no-op and no emission when paused. -/
theorem C3_witness :
    play_next_frame (PlaybackState.mk true 3 0 3)
        = (PlaybackState.mk true 0 0 3, [0]) ∧
      play_next_frame (PlaybackState.mk true 1 0 3)
        = (PlaybackState.mk true 2 0 3, [2]) ∧
      play_next_frame (PlaybackState.mk false 1 0 3)
        = (PlaybackState.mk false 1 0 3, []) :=
  ⟨(C3_tick_behavior (PlaybackState.mk true 3 0 3)).1 rfl (by decide),
   (C3_tick_behavior (PlaybackState.mk true 1 0 3)).2.1 rfl (by decide),
   (C3_tick_behavior (PlaybackState.mk false 1 0 3)).2.2 rfl⟩

/-- Claim C4 (confirmed): for any delta and any state satisfying the
invariant, `increment_frame` sets active_frame to
active_frame + delta clamped into [start_frame, end_frame], and the
result never leaves that interval. -/
theorem C4_increment_frame_clamps (s : PlaybackState) (delta : Int)
    (h1 : s.start_frame ≤ s.active_frame) (h2 : s.active_frame ≤ s.end_frame) :
    (increment_frame s delta).1.active_frame
        = max s.start_frame (min (s.active_frame + delta) s.end_frame) ∧
      s.start_frame ≤ (increment_frame s delta).1.active_frame ∧
      (increment_frame s delta).1.active_frame ≤ s.end_frame :=
  ⟨rfl, le_max_left _ _, max_le (h1.trans h2) (min_le_right _ _)⟩

/-- Witness for C4: a large positive delta from (active=2, range [0,5])
clamps to the end frame 5. -/
theorem C4_witness :
    (0 : Int) ≤ 2 ∧ (2 : Int) ≤ 5 ∧
      (increment_frame (PlaybackState.mk false 2 0 5) 100).1.active_frame
          = max (0 : Int) (min (2 + 100) 5) ∧
      (0 : Int) ≤ (increment_frame (PlaybackState.mk false 2 0 5) 100).1.active_frame ∧
      (increment_frame (PlaybackState.mk false 2 0 5) 100).1.active_frame ≤ 5 :=
  ⟨by decide, by decide,
    C4_increment_frame_clamps (PlaybackState.mk false 2 0 5) 100 (by decide) (by decide)⟩

/-- Claim C8 (confirmed): `set_frame` while playing changes nothing and
emits nothing; while paused it assigns the given frame directly, with no
clamping and no frame-changed emission. -/
theorem C8_set_frame_semantics (s : PlaybackState) (frame : Int) :
    (s.play_active = true → set_frame s frame = (s, [])) ∧
    (s.play_active = false → set_frame s frame = ({ s with active_frame := frame }, [])) := by
  constructor <;> intro h <;> simp [set_frame, h]

/-- Witness for C8: frame 99 lies outside the [0,5] range, is ignored
while playing, and is assigned unclamped while paused. -/
theorem C8_witness :
    set_frame (PlaybackState.mk true 2 0 5) 99 = (PlaybackState.mk true 2 0 5, []) ∧
      set_frame (PlaybackState.mk false 2 0 5) 99 = (PlaybackState.mk false 99 0 5, []) :=
  ⟨(C8_set_frame_semantics (PlaybackState.mk true 2 0 5) 99).1 rfl,
   (C8_set_frame_semantics (PlaybackState.mk false 2 0 5) 99).2 rfl⟩

/-! ## Scene-handler theorems -/

/-- Claim C7 (counterexample): the claim as stated fails.  For a scene
with no animation stack, `load_scene` does not succeed with zero frames:
`GetSrcObject` returns `None` and the immediate `GetSrcObject` call on it
raises `AttributeError`; `get_start_frame` / `get_end_frame` likewise
raise rather than return 0. -/
theorem C7_counterexample :
    (FbxHandler.init (FbxScene.mk [] (SceneNode.node "root" []))).load_scene
        = Except.error PyError.attributeError ∧
      (FbxHandler.init (FbxScene.mk [] (SceneNode.node "root" []))).get_start_frame
        = Except.error PyError.attributeError ∧
      (FbxHandler.init (FbxScene.mk [] (SceneNode.node "root" []))).get_end_frame
        = Except.error PyError.attributeError :=
  ⟨rfl, rfl, rfl⟩

/-- Claim C7 (amended): loading a scene with no animation stack raises
`AttributeError` (it is an error, and frames are never reported as 0);
a scene whose stack enumeration is non-empty loads successfully, and
`get_start_frame` / `get_end_frame` on the loaded handler return the
first stack's local time-span frame counts. -/
theorem C7_no_stack_raises (sc : FbxScene) :
    (sc.animStacks = [] →
      (FbxHandler.init sc).load_scene = Except.error PyError.attributeError ∧
      (FbxHandler.init sc).get_start_frame = Except.error PyError.attributeError ∧
      (FbxHandler.init sc).get_end_frame = Except.error PyError.attributeError) ∧
    (∀ st rest, sc.animStacks = st :: rest →
      (FbxHandler.init sc).load_scene = Except.ok (loaded_handler sc st) ∧
      (loaded_handler sc st).is_loaded = true ∧
      (loaded_handler sc st).get_start_frame = Except.ok st.localStart ∧
      (loaded_handler sc st).get_end_frame = Except.ok st.localStop) := by
  constructor
  · intro h
    refine ⟨?_, rfl, rfl⟩
    simp [FbxHandler.load_scene, FbxHandler.init, h]
  · intro st rest h
    refine ⟨?_, rfl, rfl, rfl⟩
    simp [FbxHandler.load_scene, FbxHandler.init, loaded_handler, h]

/-- Witness for C7: the empty-stack scene raises on all three calls; a
scene with one stack spanning frames 3..9 loads and reports them. -/
theorem C7_witness :
    ((FbxHandler.init (FbxScene.mk [] (SceneNode.node "r" []))).load_scene
        = Except.error PyError.attributeError ∧
      (FbxHandler.init (FbxScene.mk [] (SceneNode.node "r" []))).get_start_frame
        = Except.error PyError.attributeError ∧
      (FbxHandler.init (FbxScene.mk [] (SceneNode.node "r" []))).get_end_frame
        = Except.error PyError.attributeError) ∧
      ((FbxHandler.init (FbxScene.mk [AnimStack.mk 3 9 []] (SceneNode.node "r" []))).load_scene
          = Except.ok
              (loaded_handler (FbxScene.mk [AnimStack.mk 3 9 []] (SceneNode.node "r" []))
                (AnimStack.mk 3 9 [])) ∧
        (loaded_handler (FbxScene.mk [AnimStack.mk 3 9 []] (SceneNode.node "r" []))
            (AnimStack.mk 3 9 [])).is_loaded = true ∧
        (loaded_handler (FbxScene.mk [AnimStack.mk 3 9 []] (SceneNode.node "r" []))
            (AnimStack.mk 3 9 [])).get_start_frame = Except.ok 3 ∧
        (loaded_handler (FbxScene.mk [AnimStack.mk 3 9 []] (SceneNode.node "r" []))
            (AnimStack.mk 3 9 [])).get_end_frame = Except.ok 9) :=
  ⟨(C7_no_stack_raises (FbxScene.mk [] (SceneNode.node "r" []))).1 rfl,
   (C7_no_stack_raises (FbxScene.mk [AnimStack.mk 3 9 []] (SceneNode.node "r" []))).2
      (AnimStack.mk 3 9 []) [] rfl⟩

/-! ## Aggregator theorems -/

/-- A previously loaded handler for the C2 scenario: one scene whose
single animation stack spans frames 1..9. -/
def c2_prior_handler : FbxHandler :=
  loaded_handler (FbxScene.mk [AnimStack.mk 1 9 []] (SceneNode.node "r" []))
    (AnimStack.mk 1 9 [])

/-- Prior aggregator state for the C2 scenario: one loaded handler,
range [1, 9], active frame 3. -/
def c2_prior_state : AggState :=
  AggState.mk [c2_prior_handler] false 3 1 9

/-- A path that fails the `os.path.exists` check. -/
def c2_missing_path : PathSpec :=
  PathSpec.mk "missing.fbx" false (FbxScene.mk [] (SceneNode.node "r" []))

/-- Claim C2 (code bug): an empty path list is indeed a complete no-op,
but a non-empty all-invalid list is not: `remove_existing_handlers` runs
before the existence filtering, so the previously loaded handler set is
destroyed, and `min(start_times)` then raises `ValueError` on the empty
sequence — the load neither preserves the prior set nor ends cleanly
(the frame fields and the absence of a `scene_content_updated` emission
are the only parts of the claim the code meets). -/
theorem C2_all_invalid_load_discards_prior_set :
    (load_fbx_files c2_prior_state []).state.fbx_handlers = [c2_prior_handler] ∧
      (load_fbx_files c2_prior_state []).emitted = false ∧
      (load_fbx_files c2_prior_state []).error = none ∧
      (load_fbx_files c2_prior_state [c2_missing_path]).state.fbx_handlers = [] ∧
      (load_fbx_files c2_prior_state [c2_missing_path]).emitted = false ∧
      (load_fbx_files c2_prior_state [c2_missing_path]).error = some PyError.valueError ∧
      (load_fbx_files c2_prior_state [c2_missing_path]).state.start_frame = 1 ∧
      (load_fbx_files c2_prior_state [c2_missing_path]).state.end_frame = 9 ∧
      (load_fbx_files c2_prior_state [c2_missing_path]).state.active_frame = 3 :=
  ⟨rfl, rfl, rfl, rfl, rfl, rfl, rfl, rfl, rfl⟩

/-- Helper: loading a single existing path whose scene has an animation
stack replaces the handler set with that one loaded handler, recomputes
the range from its stack, and emits the structural notification. -/
theorem load_single_valid (s : AggState) (p : PathSpec) (st : AnimStack)
    (rest : List AnimStack) (hex : p.existsOnDisk = true)
    (hst : p.scene.animStacks = st :: rest) :
    load_fbx_files s [p]
      = ⟨{ fbx_handlers := [loaded_handler p.scene st]
           play_active := s.play_active
           active_frame := st.localStart
           start_frame := st.localStart
           end_frame := st.localStop }, true, none⟩ := by
  simp [load_fbx_files, remove_existing_handlers, load_loop, hex, hst,
    FbxHandler.load_scene, FbxHandler.init, loaded_handler,
    FbxHandler.get_start_frame, FbxHandler.get_end_frame]

/-- Claim C10 (confirmed): neither `FbxHandler.__init__` nor
`load_scene` assigns `hidden_nodes`, `display_color` or `file_path`, and
a single-path load assigns no display color either; yet `paintGL` reads
`hidden_nodes` (and `display_color`) and `set_node_visibility` reads
`file_path` on every handler, so after loading exactly one scene both
rendering and visibility routing hit an `AttributeError`. -/
theorem C10_unset_attribute_access (s : AggState) (p : PathSpec) (st : AnimStack)
    (rest : List AnimStack) (hex : p.existsOnDisk = true)
    (hst : p.scene.animStacks = st :: rest) (wpos : Int → String → Nat) (af : Int)
    (path : String) (names : List String) (b : Bool) :
    (∀ h ∈ (load_fbx_files s [p]).state.fbx_handlers,
        h.is_loaded = true ∧ h.hidden_nodes = none ∧ h.display_color = none ∧
          h.file_path = none) ∧
      (load_fbx_files s [p]).state.fbx_handlers ≠ [] ∧
      paintGL wpos af (load_fbx_files s [p]).state.fbx_handlers
        = Except.error PyError.attributeError ∧
      (set_node_visibility path names b (load_fbx_files s [p]).state.fbx_handlers).2
        = some PyError.attributeError := by
  rw [load_single_valid s p st rest hex hst]
  refine ⟨?_, ?_, ?_, ?_⟩
  · intro h hm
    simp only [List.mem_singleton] at hm
    subst hm
    exact ⟨rfl, rfl, rfl, rfl⟩
  · simp
  · simp [paintGL, loaded_handler, FbxHandler.init]
  · simp [set_node_visibility, loaded_handler, FbxHandler.init]

/-- Witness for C10: loading the concrete scene "a.fbx" (stack frames
0..5) leaves every attribute unset and makes both the render pass and
the visibility toggle raise. -/
theorem C10_witness :
    (∀ h ∈ (load_fbx_files (AggState.mk [] false 0 0 0)
          [PathSpec.mk "a.fbx" true
            (FbxScene.mk [AnimStack.mk 0 5 []] (SceneNode.node "r" []))]).state.fbx_handlers,
        h.is_loaded = true ∧ h.hidden_nodes = none ∧ h.display_color = none ∧
          h.file_path = none) ∧
      (load_fbx_files (AggState.mk [] false 0 0 0)
          [PathSpec.mk "a.fbx" true
            (FbxScene.mk [AnimStack.mk 0 5 []]
              (SceneNode.node "r" []))]).state.fbx_handlers ≠ [] ∧
      paintGL (fun _ _ => 0) 0
          (load_fbx_files (AggState.mk [] false 0 0 0)
            [PathSpec.mk "a.fbx" true
              (FbxScene.mk [AnimStack.mk 0 5 []]
                (SceneNode.node "r" []))]).state.fbx_handlers
        = Except.error PyError.attributeError ∧
      (set_node_visibility "a.fbx" ["spine"] false
          (load_fbx_files (AggState.mk [] false 0 0 0)
            [PathSpec.mk "a.fbx" true
              (FbxScene.mk [AnimStack.mk 0 5 []]
                (SceneNode.node "r" []))]).state.fbx_handlers).2
        = some PyError.attributeError :=
  C10_unset_attribute_access (AggState.mk [] false 0 0 0)
    (PathSpec.mk "a.fbx" true (FbxScene.mk [AnimStack.mk 0 5 []] (SceneNode.node "r" [])))
    (AnimStack.mk 0 5 []) [] rfl rfl (fun _ _ => 0) 0 "a.fbx" ["spine"] false

/-! ## Visibility-toggle theorems -/

/-- A handler whose `file_path` and `hidden_nodes` attributes are set
(the class itself never sets them — see C10), used to exercise the
`set_node_visibility` update logic in isolation. -/
def c5_handler : FbxHandler :=
  { scene := FbxScene.mk [] (SceneNode.node "r" [])
    anim_stack := none
    anim_layer := none
    is_loaded := true
    hidden_nodes := some []
    display_color := some default_display_color
    file_path := some "a.fbx" }

/-- Claim C5 (counterexample): the claim as stated fails.  Hiding a node
corresponds to check-state `False` (the tree emits
`state is Checked`, i.e. visible, as the boolean), and that branch
appends unconditionally: two hide calls for "spine" leave the handler's
hidden list containing "spine" twice, not exactly once. -/
theorem C5_counterexample :
    ((set_node_visibility "a.fbx" ["spine"] false
          ((set_node_visibility "a.fbx" ["spine"] false [c5_handler]).1)).1.map
        FbxHandler.hidden_nodes)
        = [some ["spine", "spine"]] ∧
      (["spine", "spine"] : List String).count "spine" ≠ 1 :=
  ⟨rfl, by decide⟩

/-- Claim C5 (amended): for a handler matching the given path, hiding
the same node twice (check-state `False`) appends it twice — the
hidden-node list is a list with duplicates, not a set, so the add is not
idempotent; un-hiding (check-state `True`) a node not present in the
hidden list is a no-op and raises no error. -/
theorem C5_visibility_updates (p n : String) (l : List String) (h : FbxHandler)
    (hfp : h.file_path = some p) (hhid : h.hidden_nodes = some l) :
    ((set_node_visibility p [n] false
          ((set_node_visibility p [n] false [h]).1)).1.map FbxHandler.hidden_nodes)
        = [some ((l ++ [n]) ++ [n])] ∧
      (n ∉ l →
        (set_node_visibility p [n] true [h]).1.map FbxHandler.hidden_nodes = [some l] ∧
          (set_node_visibility p [n] true [h]).2 = none) := by
  refine ⟨?_, fun hn => ?_⟩
  · simp [set_node_visibility, update_hidden, hfp, hhid]
  · simp [set_node_visibility, update_hidden, hfp, hhid, hn]

/-- Witness for C5: on a handler for "a.fbx" with an empty hidden list,
hiding "neck" twice stores it twice, and un-hiding the absent "neck" is
an error-free no-op. -/
theorem C5_witness :
    ((set_node_visibility "a.fbx" ["neck"] false
          ((set_node_visibility "a.fbx" ["neck"] false [c5_handler]).1)).1.map
        FbxHandler.hidden_nodes)
        = [some ((([] : List String) ++ ["neck"]) ++ ["neck"])] ∧
      ((set_node_visibility "a.fbx" ["neck"] true [c5_handler]).1.map
            FbxHandler.hidden_nodes = [some ([] : List String)] ∧
        (set_node_visibility "a.fbx" ["neck"] true [c5_handler]).2 = none) :=
  ⟨(C5_visibility_updates "a.fbx" "neck" [] c5_handler rfl rfl).1,
   (C5_visibility_updates "a.fbx" "neck" [] c5_handler rfl rfl).2 (by decide)⟩

/-! ## Skeleton-sampling theorems -/

/-- A subtree occurrence: `OccursIn c t` holds when `c` is `t` itself or
a node somewhere below `t`. -/
inductive OccursIn : SceneNode → SceneNode → Prop where
  | refl (t : SceneNode) : OccursIn t t
  | step {c : SceneNode} {n : String} {cs : List SceneNode} (d : SceneNode) :
      d ∈ cs → OccursIn c d → OccursIn c (SceneNode.node n cs)

/-- Helper: entries of a member subtree are entries of the forest. -/
theorem mem_forest_entries {α : Type} (wpos : String → α) (pn : String)
    (c : SceneNode) (e : String × α × α) :
    ∀ cs : List SceneNode, c ∈ cs → e ∈ node_entries wpos pn c →
      e ∈ forest_entries wpos pn cs
  | [], h, _ => absurd h (List.not_mem_nil c)
  | c' :: rest, h, he => by
    simp only [forest_entries, List.mem_append]
    rcases List.mem_cons.1 h with h | h
    · subst h
      exact Or.inl he
    · exact Or.inr (mem_forest_entries wpos pn c e rest h he)

/-- Helper: entries below a node occurring anywhere in `t` are entries
of `t`, whatever parent name `t` is sampled under. -/
theorem entries_of_occurring_node {α : Type} (wpos : String → α) (e : String × α × α)
    (c : SceneNode) (n : String) (cs : List SceneNode) (t : SceneNode)
    (hocc : OccursIn (SceneNode.node n cs) t) (hc : c ∈ cs)
    (he : e ∈ node_entries wpos n c) : ∀ pn, e ∈ node_entries wpos pn t := by
  induction hocc with
  | refl =>
    intro pn
    simp only [node_entries, List.mem_cons]
    exact Or.inr (mem_forest_entries wpos n c e cs hc he)
  | step d hd _ ih =>
    intro pn
    simp only [node_entries, List.mem_cons]
    rename_i n' cs' _
    exact Or.inr (mem_forest_entries wpos n' d e cs' hd (ih n'))

/-- Claim C6 (confirmed): the drawn segment set omits exactly the
entries whose own bone name is hidden — every drawn entry is
non-hidden, every non-hidden sampled entry is drawn, and an entry from
the subtree below any node occurring in the scene (in particular below
a hidden node) is still drawn whenever its own name is not hidden:
traversal never consults the hidden set. -/
theorem C6_hidden_filters_only_own_segment {α : Type} (wpos : String → α)
    (hidden : List String) (scene : FbxScene) :
    (∀ e ∈ drawn_segments hidden (skeleton_points wpos scene), e.1 ∉ hidden) ∧
      (∀ e ∈ skeleton_points wpos scene, e.1 ∉ hidden →
        e ∈ drawn_segments hidden (skeleton_points wpos scene)) ∧
      (∀ (n : String) (cs : List SceneNode) (c : SceneNode) (e : String × α × α),
        OccursIn (SceneNode.node n cs) scene.root → c ∈ cs →
          e ∈ node_entries wpos n c → e.1 ∉ hidden →
            e ∈ drawn_segments hidden (skeleton_points wpos scene)) := by
  refine ⟨?_, ?_, ?_⟩
  · intro e he
    simpa [drawn_segments, List.mem_filter] using And.right (List.mem_filter.1 he)
  · intro e he hn
    exact List.mem_filter.2 ⟨he, by simpa using hn⟩
  · intro n cs c e hocc hc he hn
    refine List.mem_filter.2 ⟨?_, by simpa using hn⟩
    obtain ⟨scene_stacks, scene_root⟩ := scene
    cases hocc with
    | refl =>
      unfold skeleton_points
      exact mem_forest_entries wpos (SceneNode.node n cs).name c e
        (SceneNode.node n cs).children hc he
    | step d hd hocc' =>
      rename_i n' cs'
      unfold skeleton_points
      exact mem_forest_entries wpos n' d e cs' hd
        (entries_of_occurring_node wpos e c n cs d hocc' hc he n')

/-- Witness for C6: in the scene root → spine → hand with "spine"
hidden, the segment for "hand" (a child of the hidden node) is drawn,
and its name is indeed not hidden. -/
theorem C6_witness :
    ("hand", "hand", "spine")
        ∈ drawn_segments ["spine"]
          (skeleton_points (fun nm => nm)
            (FbxScene.mk []
              (SceneNode.node "root"
                [SceneNode.node "spine" [SceneNode.node "hand" []]]))) ∧
      "hand" ∉ ["spine"] := by
  have h3 := (C6_hidden_filters_only_own_segment (fun nm => nm) ["spine"]
      (FbxScene.mk []
        (SceneNode.node "root" [SceneNode.node "spine" [SceneNode.node "hand" []]]))).2.2
    "spine" [SceneNode.node "hand" []] (SceneNode.node "hand" []) ("hand", "hand", "spine")
    (OccursIn.step (SceneNode.node "spine" [SceneNode.node "hand" []])
      (List.Mem.head _) (OccursIn.refl _))
    (List.Mem.head _) (by simp [node_entries, forest_entries]) (by decide)
  exact ⟨h3,
    (C6_hidden_filters_only_own_segment (fun nm => nm) ["spine"]
        (FbxScene.mk []
          (SceneNode.node "root"
            [SceneNode.node "spine" [SceneNode.node "hand" []]]))).1
      ("hand", "hand", "spine") h3⟩

/-! ## Display-color theorems -/

/-- The handler list `load_loop` leaves behind, whether it returned
normally or an exception escaped. -/
def handlersOf
    (r : Except (PyError × List FbxHandler) (List FbxHandler × List Int × List Int)) :
    List FbxHandler :=
  match r with
  | .error (_, hs) => hs
  | .ok (hs, _, _) => hs

/-- Helper: a successful `load_scene` only sets `anim_stack`,
`anim_layer` and `is_loaded`; the unset attributes stay unset. -/
theorem load_scene_fields (h h' : FbxHandler) (heq : h.load_scene = Except.ok h') :
    h'.hidden_nodes = h.hidden_nodes ∧ h'.display_color = h.display_color ∧
      h'.file_path = h.file_path ∧ h'.is_loaded = true ∧
      ∃ stk, h'.anim_stack = some stk := by
  unfold FbxHandler.load_scene at heq
  split at heq
  · cases heq
  · cases heq
    rename_i stk hstk
    exact ⟨rfl, rfl, rfl, rfl, stk, rfl⟩

/-- Helper: frame queries succeed on a handler holding a stack. -/
theorem get_frames_ok (h : FbxHandler) (stk : AnimStack) (hstk : h.anim_stack = some stk) :
    h.get_start_frame = Except.ok stk.localStart ∧
      h.get_end_frame = Except.ok stk.localStop := by
  unfold FbxHandler.get_start_frame FbxHandler.get_end_frame
  rw [hstk]
  exact ⟨rfl, rfl⟩

/-- Helper: `load_fbx_files` on a non-empty path list always installs
exactly the handler list `load_loop` produced. -/
theorem load_fbx_files_handlers (s : AggState) (paths : List PathSpec)
    (hne : paths.isEmpty = false) :
    (load_fbx_files s paths).state.fbx_handlers
      = handlersOf (load_loop (decide (1 < paths.length)) [] [] [] 0 paths) := by
  unfold load_fbx_files
  rw [hne]
  simp only [Bool.false_eq_true, if_false]
  rcases hres : load_loop (decide (1 < paths.length)) [] [] [] 0 paths with ⟨e, hs⟩ | ⟨hs, ss, ts⟩
  · simp [handlersOf]
  · rcases hmn : ss.min? with _ | mn <;> rcases hmx : ts.max? with _ | mx <;>
      simp [handlersOf, hmn, hmx]

/-- Helper: with the multi-path flag off, no display color is ever
assigned: every handler left behind by `load_loop` whose prefix had no
color keeps none. -/
theorem load_loop_no_color (ps : List PathSpec) :
    ∀ (hs : List FbxHandler) (ss ts : List Int) (k : Nat),
      (∀ h ∈ hs, h.display_color = none) →
      ∀ h ∈ handlersOf (load_loop false hs ss ts k ps), h.display_color = none := by
  induction ps with
  | nil =>
    intro hs ss ts k hall h hm
    exact hall h hm
  | cons p rest ih =>
    intro hs ss ts k hall h hm
    simp only [load_loop, Bool.false_eq_true, if_false] at hm
    split at hm
    · exact ih hs ss ts k hall h hm
    · split at hm
      · exact hall h hm
      · rename_i h0 heq
        obtain ⟨-, hcol, -, -, stk, hstk⟩ := load_scene_fields _ h0 heq
        obtain ⟨hgs, hge⟩ := get_frames_ok h0 stk hstk
        have hcol0 : h0.display_color = none := by
          rw [hcol]
          rfl
        split at hm
        · refine ih (hs ++ [h0]) _ _ (k + 1) ?_ h hm
          intro h' hm'
          rcases List.mem_append.1 hm' with hm' | hm'
          · exact hall h' hm'
          · rw [List.mem_singleton.1 hm']
            exact hcol0
        · rename_i hno
          exact absurd (hno stk.localStart stk.localStop hgs hge) (by simp)

/-- Helper: with the multi-path flag on, `load_loop` hands every loaded
handler the next call-indexed color, so the colors in the resulting
list are bounded by the final index and pairwise distinct. -/
theorem load_loop_colors (ps : List PathSpec) :
    ∀ (hs : List FbxHandler) (ss ts : List Int) (k : Nat),
      (∀ h ∈ hs, ∃ c, h.display_color = some c ∧ c ≤ k) →
      ((hs.map FbxHandler.display_color).Pairwise (· ≠ ·)) →
      (∀ h ∈ handlersOf (load_loop true hs ss ts k ps),
          ∃ c, h.display_color = some c ∧ c ≤ k + ps.length) ∧
        ((handlersOf (load_loop true hs ss ts k ps)).map
            FbxHandler.display_color).Pairwise (· ≠ ·) := by
  induction ps with
  | nil =>
    intro hs ss ts k hb hp
    refine ⟨fun h hm => ?_, hp⟩
    obtain ⟨c, hc, hck⟩ := hb h hm
    exact ⟨c, hc, by simpa using hck⟩
  | cons p rest ih =>
    intro hs ss ts k hb hp
    simp only [load_loop, if_true] at *
    split
    · obtain ⟨H1, H2⟩ := ih hs ss ts k hb hp
      refine ⟨fun h hm => ?_, H2⟩
      obtain ⟨c, hc, hck⟩ := H1 h hm
      refine ⟨c, hc, ?_⟩
      simp only [List.length_cons]
      omega
    · split
      · refine ⟨fun h hm => ?_, hp⟩
        obtain ⟨c, hc, hck⟩ := hb h hm
        refine ⟨c, hc, ?_⟩
        simp only [List.length_cons]
        omega
      · rename_i h0 heq
        obtain ⟨-, hcol, -, -, stk, hstk⟩ := load_scene_fields _ h0 heq
        obtain ⟨hgs, hge⟩ := get_frames_ok h0 stk hstk
        split
        · rename_i st en hst hen
          have hb' : ∀ h ∈ hs ++ [{ h0 with display_color := some (get_random_color k) }],
              ∃ c, h.display_color = some c ∧ c ≤ k + 1 := by
            intro h' hm'
            rcases List.mem_append.1 hm' with hm' | hm'
            · obtain ⟨c, hc, hck⟩ := hb h' hm'
              exact ⟨c, hc, by omega⟩
            · rw [List.mem_singleton.1 hm']
              exact ⟨k + 1, rfl, le_refl _⟩
          have hp' : (((hs ++ [{ h0 with display_color := some (get_random_color k) }]).map
              FbxHandler.display_color).Pairwise (· ≠ ·)) := by
            rw [List.map_append, List.pairwise_append]
            refine ⟨hp, List.pairwise_singleton _ _, ?_⟩
            intro a ha b hbm
            simp only [List.map_cons, List.map_nil, List.mem_singleton] at hbm
            subst hbm
            obtain ⟨h', hm', rfl⟩ := List.mem_map.1 ha
            obtain ⟨c, hc, hck⟩ := hb h' hm'
            rw [hc]
            intro hcontra
            have : c = get_random_color k := Option.some.injEq _ _ ▸ hcontra
            simp only [get_random_color] at this
            omega
          obtain ⟨H1, H2⟩ := ih _ _ _ (k + 1) hb' hp'
          refine ⟨fun h hm => ?_, H2⟩
          obtain ⟨c, hc, hck⟩ := H1 h hm
          refine ⟨c, hc, ?_⟩
          simp only [List.length_cons] at *
          omega
        · rename_i hno
          exact absurd (hno stk.localStart stk.localStop hgs hge) (by simp)

/-- A first existing path with a stack spanning frames 0..5. -/
def c9_path_a : PathSpec :=
  PathSpec.mk "a.fbx" true (FbxScene.mk [AnimStack.mk 0 5 []] (SceneNode.node "r" []))

/-- A second existing path with a stack spanning frames 2..7. -/
def c9_path_b : PathSpec :=
  PathSpec.mk "b.fbx" true (FbxScene.mk [AnimStack.mk 2 7 []] (SceneNode.node "r" []))

/-- Claim C9 (counterexample): the claim as stated fails for a
single-scene load.  Loading exactly one valid path succeeds and emits,
but the handler's display color is never assigned — the attribute stays
unset, so the handle does not hold the fixed default display color (or
any color). -/
theorem C9_counterexample :
    (load_fbx_files (AggState.mk [] false 0 0 0) [c9_path_a]).error = none ∧
      (load_fbx_files (AggState.mk [] false 0 0 0) [c9_path_a]).emitted = true ∧
      ((load_fbx_files (AggState.mk [] false 0 0 0) [c9_path_a]).state.fbx_handlers.map
          FbxHandler.display_color) = [none] ∧
      ((load_fbx_files (AggState.mk [] false 0 0 0) [c9_path_a]).state.fbx_handlers.map
          FbxHandler.display_color) ≠ [some default_display_color] :=
  ⟨rfl, rfl, rfl, by decide⟩

/-- Claim C9 (amended): when more than one path is requested in one load
call, every handler left behind carries an assigned display color and
the colors are pairwise distinct (with `get_random_color` modelled from
the spec as distinct per call); when exactly one path is requested, no
display color is assigned at all — the attribute stays unset, there is
no fixed default. -/
theorem C9_display_colors (s : AggState) (paths : List PathSpec) :
    (1 < paths.length →
      (((load_fbx_files s paths).state.fbx_handlers.map
          FbxHandler.display_color).Pairwise (· ≠ ·)) ∧
        ∀ h ∈ (load_fbx_files s paths).state.fbx_handlers,
          ∃ c, h.display_color = some c) ∧
      (paths.length = 1 →
        ∀ h ∈ (load_fbx_files s paths).state.fbx_handlers, h.display_color = none) := by
  constructor
  · intro hlen
    have hne : paths.isEmpty = false := by
      cases paths
      · simp at hlen
      · rfl
    have hdec : decide (1 < paths.length) = true := decide_eq_true hlen
    rw [load_fbx_files_handlers s paths hne, hdec]
    obtain ⟨H1, H2⟩ := load_loop_colors paths [] [] [] 0 (by simp) (by simp)
    refine ⟨H2, fun h hm => ?_⟩
    obtain ⟨c, hc, -⟩ := H1 h hm
    exact ⟨c, hc⟩
  · intro hlen
    have hne : paths.isEmpty = false := by
      cases paths
      · simp at hlen
      · rfl
    have hdec : decide (1 < paths.length) = false := by
      rw [hlen]
      rfl
    rw [load_fbx_files_handlers s paths hne, hdec]
    exact load_loop_no_color paths [] [] [] 0 (by simp)

/-- Witness for C9: the two-path load of "a.fbx" and "b.fbx" yields
pairwise-distinct handler colors, and the handler of a one-path load of
"a.fbx" has no display color. -/
theorem C9_witness :
    ((load_fbx_files (AggState.mk [] false 0 0 0)
          [c9_path_a, c9_path_b]).state.fbx_handlers.map
        FbxHandler.display_color).Pairwise (· ≠ ·) ∧
      (loaded_handler c9_path_a.scene (AnimStack.mk 0 5 [])).display_color = none :=
  ⟨((C9_display_colors (AggState.mk [] false 0 0 0) [c9_path_a, c9_path_b]).1
      (by decide)).1,
   (C9_display_colors (AggState.mk [] false 0 0 0) [c9_path_a]).2 rfl
     (loaded_handler c9_path_a.scene (AnimStack.mk 0 5 []))
     (by
       rw [load_single_valid (AggState.mk [] false 0 0 0) c9_path_a
         (AnimStack.mk 0 5 []) [] rfl rfl]
       exact List.Mem.head _)⟩

end MocapFinder
